import Mathlib

/-!
Verification development for the PostureGuard backend (Node/Express/Mongoose).

Each definition is a shallow embedding of one source construct:
* `backend/models/User.js`        — account schema, password hashing hooks, lockout methods
* `backend/routes/auth.js`        — register / login / change-password handlers
* `backend/middleware/auth.js`    — bearer-token middleware and per-user rate limiter
* `backend/models/PostureLog.js`  — measurement schema and its pre-save hooks
* `backend/routes/posture.js`     — posture log CRUD handlers
* `backend/routes/video.js`       — detection / alert handlers
* `backend/utils/postureUtils.js` — score classification utilities
* `backend/models/UserSettings.js`, `backend/routes/settings.js` — settings model/routes

Conventions: JS timestamps (`Date.now()`) are `Int` milliseconds; JS numbers that
carry scores/durations are `ℚ`; MongoDB documents are Lean structures; a
collection is a Lean list.  bcrypt is modelled symbolically: `PwVal.hashed v` is
the (salted) bcrypt digest of value `v`, so hashing is injective, not invertible,
and distinct from every plaintext — the standard idealization of the library.
Record fields that no verified handler reads or writes (profile measurements,
environment descriptors, tags, …) are not carried in the document structures.
-/

namespace PostureGuard

/-- A value that can sit in the `password` field of a User document: either a
plaintext string (as set by registration before the pre-save hook runs) or a
bcrypt digest of a previous value (`bcrypt.hash` output). -/
inductive PwVal where
  | plain (s : String)
  | hashed (v : PwVal)
deriving DecidableEq, Repr

/-- `bcrypt.hash(value, 12)` — symbolic one-way digest (cost factor irrelevant
to the model). -/
def bcryptHash (v : PwVal) : PwVal := PwVal.hashed v

/-- `bcrypt.compare(candidate, stored)` — true iff `stored` is a bcrypt digest
of the candidate plaintext. -/
def bcryptCompare (candidate : String) (stored : PwVal) : Bool :=
  decide (stored = bcryptHash (PwVal.plain candidate))

/-- JS `String.prototype.toLowerCase`, as the per-character ASCII lowering
(executable in the kernel, unlike `String.toLower`). -/
def jsToLower (s : String) : String := String.mk (s.data.map Char.toLower)

/-- `accountStatus` enum of the User schema. -/
inductive AccountStatus where
  | active
  | inactive
  | suspended
  | pending_verification
deriving DecidableEq, Repr

/-- `loginAttempts` sub-document of the User schema
(`count` default 0, `lastAttempt`/`lockedUntil` default null). -/
structure LoginAttempts where
  count : Nat
  lastAttempt : Option Int
  lockedUntil : Option Int
deriving DecidableEq, Repr

/-- User document (fields used by the verified handlers). -/
structure User where
  name : String
  email : String
  password : PwVal
  accountStatus : AccountStatus
  lastLogin : Option Int
  loginAttempts : LoginAttempts
deriving DecidableEq, Repr

/-- `User.js` virtual `isLocked`:
`!!(loginAttempts.lockedUntil && loginAttempts.lockedUntil > Date.now())`. -/
def User.isLocked (u : User) (now : Int) : Bool :=
  match u.loginAttempts.lockedUntil with
  | some t => decide (now < t)
  | none => false

/-- `User.js` pre-save hook: hash the password iff it was modified on this save. -/
def userPreSave (u : User) (passwordModified : Bool) : User :=
  if passwordModified then { u with password := bcryptHash u.password } else u

/-- `User.js` instance method `comparePassword`. -/
def User.comparePassword (u : User) (candidatePassword : String) : Bool :=
  bcryptCompare candidatePassword u.password

/-- 2 hours in milliseconds, the lockout window of `incLoginAttempts`. -/
def twoHoursMs : Int := 2 * 60 * 60 * 1000

/-- `User.js` instance method `incLoginAttempts`: if a previous lock has
expired, restart the counter at 1; otherwise increment the counter and, when
the new count reaches 5 and the account is not already locked, set
`lockedUntil` two hours in the future. -/
def incLoginAttempts (u : User) (now : Int) : User :=
  match u.loginAttempts.lockedUntil with
  | some t =>
    if t < now then
      { u with loginAttempts := ⟨1, some now, none⟩ }
    else
      { u with loginAttempts :=
          ⟨u.loginAttempts.count + 1, some now,
            if u.loginAttempts.count + 1 ≥ 5 ∧ ¬ (u.isLocked now = true) then
              some (now + twoHoursMs)
            else u.loginAttempts.lockedUntil⟩ }
  | none =>
      { u with loginAttempts :=
          ⟨u.loginAttempts.count + 1, some now,
            if u.loginAttempts.count + 1 ≥ 5 ∧ ¬ (u.isLocked now = true) then
              some (now + twoHoursMs)
            else u.loginAttempts.lockedUntil⟩ }

/-- `User.js` instance method `resetLoginAttempts` (unsets all three fields,
restoring the schema defaults). -/
def resetLoginAttempts (u : User) : User :=
  { u with loginAttempts := ⟨0, none, none⟩ }

/-- Outcome of `POST /api/auth/login` (`routes/auth.js`).  Joi body validation
(which can only yield a 400) happens upstream of this handler model. -/
inductive LoginResult where
  | invalidCredentials
  | success (user : User)
deriving DecidableEq, Repr

/-- HTTP status of a login outcome. -/
def LoginResult.status : LoginResult → Nat
  | .invalidCredentials => 401
  | .success _ => 200

/-- `routes/auth.js` `POST /login`: find the user by lowercased email, compare
the password with bcrypt, and on success stamp `lastLogin` and save (the
password field is untouched, so the pre-save hook does not rehash).  The
handler never consults `isLocked` and never calls `incLoginAttempts` or
`resetLoginAttempts`. -/
def loginHandler (users : List User) (email password : String) (now : Int) :
    List User × LoginResult :=
  match users.find? (fun u => u.email == jsToLower email) with
  | none => (users, .invalidCredentials)
  | some u =>
    if bcryptCompare password u.password then
      let u' := userPreSave { u with lastLogin := some now } false
      (users.map (fun v => if v.email == u.email then u' else v), .success u')
    else
      (users, .invalidCredentials)

/-- Outcome of `POST /api/auth/register`. -/
inductive RegisterResult where
  | duplicateEmail
  | success (user : User)
deriving DecidableEq, Repr

/-- `routes/auth.js` `POST /register`: reject a duplicate (lowercased) email,
otherwise create the user with the plaintext password — the pre-save hook
hashes it (password is new, hence modified). -/
def registerHandler (users : List User) (name email password : String) :
    List User × RegisterResult :=
  match users.find? (fun u => u.email == jsToLower email) with
  | some _ => (users, .duplicateEmail)
  | none =>
    let u := userPreSave
      { name := name, email := jsToLower email, password := PwVal.plain password,
        accountStatus := .active, lastLogin := none,
        loginAttempts := ⟨0, none, none⟩ } true
    (users ++ [u], .success u)

/-- Outcome of `POST /api/auth/change-password`. -/
inductive ChangePwResult where
  | validationError
  | invalidPassword
  | success
deriving DecidableEq, Repr

/-- Joi body check of the change-password route: `currentPassword` is a
required non-empty string, `newPassword` has at least 6 characters. -/
def changePwBodyValid (currentPassword newPassword : String) : Bool :=
  currentPassword ≠ "" && newPassword.length ≥ 6

/-- `routes/auth.js` `POST /change-password`: verify the current password with
bcrypt, then hash the new password in the route, assign it to the document and
save — the pre-save hook sees a modified password field and hashes the
already-hashed value a second time. -/
def changePasswordHandler (u : User) (currentPassword newPassword : String) :
    User × ChangePwResult :=
  if ¬ changePwBodyValid currentPassword newPassword then (u, .validationError)
  else if ¬ bcryptCompare currentPassword u.password then (u, .invalidPassword)
  else
    let u1 := { u with password := bcryptHash (PwVal.plain newPassword) }
    (userPreSave u1 true, .success)

/-- Token verification outcome seen by the auth middleware, after the header
checks and `jwt.verify` (`middleware/auth.js` lines 13–44). -/
inductive TokenCheck where
  | noHeader
  | notBearer
  | emptyToken
  | invalidToken
  | expiredToken
  | valid (userId : Nat)
deriving DecidableEq, Repr

/-- Result of the auth middleware: either a JSON error response with an HTTP
status, or `next()` with `req.userId`/`req.user` attached. -/
inductive AuthResult where
  | reject (status : Nat) (error message : String)
  | proceed (userId : Nat) (user : User)
deriving DecidableEq, Repr

/-- HTTP status carried by an auth middleware outcome (`none` on proceed). -/
def AuthResult.statusCode : AuthResult → Option Nat
  | .reject s _ _ => some s
  | .proceed _ _ => none

/-- `middleware/auth.js` `auth`: classify the header/token, load the account,
reject non-active accounts, reject locked accounts, otherwise attach the
account to the request and continue.  `findUser` stands for
`User.findById(decoded.userId)`. -/
def authMiddleware (tc : TokenCheck) (findUser : Nat → Option User) (now : Int) :
    AuthResult :=
  match tc with
  | .noHeader => .reject 401 "Access Denied" "No authorization header provided"
  | .notBearer => .reject 401 "Access Denied" "Invalid token format. Use Bearer token"
  | .emptyToken => .reject 401 "Access Denied" "No token provided"
  | .invalidToken => .reject 401 "Access Denied" "Invalid token"
  | .expiredToken => .reject 401 "Access Denied" "Token has expired"
  | .valid uid =>
    match findUser uid with
    | none => .reject 401 "Access Denied" "User no longer exists"
    | some u =>
      if u.accountStatus ≠ AccountStatus.active then
        .reject 401 "Account Suspended" "Your account is not active. Please contact support."
      else if u.isLocked now then
        .reject 401 "Account Locked"
          "Your account is temporarily locked due to too many failed login attempts"
      else
        .proceed uid u

/-- Status variants of `utils/postureUtils.js` `getPostureStatus`. -/
inductive PostureStatus where
  | good
  | warning
  | bad
  | neutral
deriving DecidableEq, Repr

/-- `postureUtils.js` `getPostureStatus`. -/
def getPostureStatus (score : ℚ) : PostureStatus :=
  if score ≥ 80 then .good
  else if score ≥ 60 then .warning
  else if score > 0 then .bad
  else .neutral

/-- `postureUtils.js` `getPostureDescription`. -/
def getPostureDescription (score : ℚ) : String :=
  if score ≥ 90 then "Excellent Posture"
  else if score ≥ 80 then "Good Posture"
  else if score ≥ 70 then "Fair Posture"
  else if score ≥ 60 then "Slouching Detected"
  else if score ≥ 40 then "Poor Posture"
  else if score > 0 then "Very Poor Posture"
  else "No Data"

/-- Alert configuration returned by `postureUtils.js` `getAlertLevel`. -/
structure AlertConfig where
  level : String
  message : String
  shouldAlert : Bool
  priority : String
deriving DecidableEq, Repr

/-- `postureUtils.js` `getAlertLevel`. -/
def getAlertLevel (score : ℚ) : AlertConfig :=
  if score ≥ 80 then
    { level := "none", message := "", shouldAlert := false, priority := "low" }
  else if score ≥ 60 then
    { level := "warning", message := "Consider adjusting your sitting position",
      shouldAlert := true, priority := "medium" }
  else
    { level := "critical", message := "Please sit up straight and adjust your posture",
      shouldAlert := true, priority := "high" }

/-- `postureType` enum of the PostureLog schema. -/
inductive PostureType where
  | good
  | moderate
  | poor
deriving DecidableEq, Repr

/-- The score→category thresholds written in the `PostureLog.js` pre-save hook. -/
def postureTypeFromScore (score : ℚ) : PostureType :=
  if score ≥ 80 then .good
  else if score ≥ 60 then .moderate
  else .poor

/-- `PostureLog.js` virtual `postureGrade`. -/
def postureGrade (score : ℚ) : String :=
  if score ≥ 90 then "A+"
  else if score ≥ 80 then "A"
  else if score ≥ 70 then "B"
  else if score ≥ 60 then "C"
  else if score ≥ 50 then "D"
  else "F"

/-- `feedback` sub-document of the PostureLog schema. -/
structure Feedback where
  alertTriggered : Bool
  correctionSuggested : Option String
  userResponse : Option String
  responseTime : Option Int
deriving DecidableEq, Repr

/-- Schema defaults of the `feedback` sub-document. -/
def defaultFeedback : Feedback :=
  { alertTriggered := false, correctionSuggested := none,
    userResponse := none, responseTime := none }

/-- PostureLog document (fields used by the verified handlers;
`sessionId` stands for `metadata.sessionId`). -/
structure PostureLog where
  userId : Nat
  timestamp : Int
  postureScore : ℚ
  postureType : PostureType
  duration : ℚ
  feedback : Feedback
  sessionId : Option String
  notes : Option String
deriving DecidableEq, Repr

/-- The two `PostureLog.js` pre-save hooks: recompute `postureType` from the
score when the score was modified on this save, and fill `metadata.sessionId`
with a generated id on new documents that lack one.  `freshId` stands for
`new mongoose.Types.ObjectId().toString()`. -/
def logPreSave (l : PostureLog) (scoreModified isNew : Bool) (freshId : String) :
    PostureLog :=
  let l1 :=
    if scoreModified then { l with postureType := postureTypeFromScore l.postureScore }
    else l
  if l1.sessionId = none ∧ isNew = true then { l1 with sessionId := some freshId }
  else l1

/-- A PostureLog collection: association list of (document id, document). -/
abbrev LogStore := List (Nat × PostureLog)

/-- Body of `POST /api/posture/log` and `PUT /api/posture/logs/:id`
(`routes/posture.js` Joi schema; fields not carried by the document model are
dropped). -/
structure PostureLogBody where
  timestamp : Option Int
  postureScore : ℚ
  postureType : PostureType
  duration : Option ℚ
  notes : Option String
deriving DecidableEq, Repr

/-- Joi validation of the posture-log body: score in [0,100], `postureType`
in its enum (by construction), positive duration when present. -/
def postureLogBodyValid (b : PostureLogBody) : Bool :=
  0 ≤ b.postureScore && b.postureScore ≤ 100 &&
    (match b.duration with
     | some d => 0 < d
     | none => true)

/-- Outcome of `POST /api/posture/log`. -/
inductive PostLogResult where
  | validationError
  | created (log : PostureLog)
deriving DecidableEq, Repr

/-- `routes/posture.js` `POST /log`: validate, build the document from the body
plus the authenticated user id and a default timestamp, then `save()` — the
pre-save hook recomputes `postureType` from the score (a new document counts
as score-modified), so the caller-supplied category is overwritten. -/
def postLogHandler (db : LogStore) (nextId : Nat) (uid : Nat) (b : PostureLogBody)
    (now : Int) (freshId : String) : LogStore × PostLogResult :=
  if ¬ postureLogBodyValid b then (db, .validationError)
  else
    let doc : PostureLog :=
      { userId := uid, timestamp := b.timestamp.getD now,
        postureScore := b.postureScore, postureType := b.postureType,
        duration := b.duration.getD 1, feedback := defaultFeedback,
        sessionId := none, notes := b.notes }
    let saved := logPreSave doc true true freshId
    (db ++ [(nextId, saved)], .created saved)

/-- Outcome of `PUT /api/posture/logs/:id` and `DELETE /api/posture/logs/:id`.
The 404 branch carries the exact error/message strings of the route. -/
inductive LogOpResult where
  | validationError
  | notFound (error message : String)
  | ok (log : PostureLog)
  | deleted
deriving DecidableEq, Repr

/-- `routes/posture.js` `PUT /logs/:id`: validate the body, then
`findOneAndUpdate({_id: id, userId}, req.body, {new, runValidators})`.
A query update runs no document pre-save hook, so the caller-supplied
`postureType` is stored verbatim.  Ownership is part of the filter: a document
owned by someone else is indistinguishable from a missing one. -/
def putLogHandler (db : LogStore) (uid id : Nat) (b : PostureLogBody) :
    LogStore × LogOpResult :=
  if ¬ postureLogBodyValid b then (db, .validationError)
  else
    match db.find? (fun p => p.1 == id && p.2.userId == uid) with
    | none => (db, .notFound "Log Not Found" "Posture log not found or unauthorized")
    | some p =>
      let updated : PostureLog :=
        { p.2 with
          timestamp := b.timestamp.getD p.2.timestamp,
          postureScore := b.postureScore,
          postureType := b.postureType,
          duration := b.duration.getD p.2.duration,
          notes := match b.notes with
                   | some n => some n
                   | none => p.2.notes }
      (db.map (fun q => if q.1 == id && q.2.userId == uid then (q.1, updated) else q),
       .ok updated)

/-- `routes/posture.js` `DELETE /logs/:id`:
`findOneAndDelete({_id: id, userId})` with the same not-found/not-owned 404. -/
def deleteLogHandler (db : LogStore) (uid id : Nat) : LogStore × LogOpResult :=
  match db.find? (fun p => p.1 == id && p.2.userId == uid) with
  | none => (db, .notFound "Log Not Found" "Posture log not found or unauthorized")
  | some _ => (db.filter (fun p => ¬ (p.1 == id && p.2.userId == uid)), .deleted)

/-- Body of `POST /api/video/detection` (`routes/video.js` Joi schema;
measurement/metadata sub-objects are validated but not carried). -/
structure DetectionBody where
  sessionId : String
  postureScore : ℚ
deriving DecidableEq, Repr

/-- Joi validation of the detection body: sessionId required (non-empty
string), score in [0,100]. -/
def detectionBodyValid (b : DetectionBody) : Bool :=
  b.sessionId ≠ "" && 0 ≤ b.postureScore && b.postureScore ≤ 100

/-- The response assembled by the detection route (route fields plus the
`formatPostureForFrontend` spread). -/
structure DetectionResponse where
  postureStatus : PostureStatus
  postureScore : ℚ
  alertTriggered : Bool
  correctionSuggested : String
  status : PostureStatus
  description : String
  grade : String
  feedback : Feedback
deriving DecidableEq, Repr

/-- Outcome of `POST /api/video/detection`. -/
inductive DetectionResult where
  | validationError
  | ok (resp : DetectionResponse)
deriving DecidableEq, Repr

/-- `routes/video.js` `POST /detection`: classify the submitted score with
`getPostureStatus`/`getAlertLevel`, map the status to a `postureType`
(the `neutral` status keeps the initial `good`), persist the measurement
(`save()` runs the pre-save hooks), and answer with the alert decision and the
`formatPostureForFrontend` fields computed from the saved document. -/
def detectionHandler (db : LogStore) (nextId : Nat) (uid : Nat) (b : DetectionBody)
    (now : Int) : LogStore × DetectionResult :=
  if ¬ detectionBodyValid b then (db, .validationError)
  else
    let postureStatus := getPostureStatus b.postureScore
    let alertConfig := getAlertLevel b.postureScore
    let postureType : PostureType :=
      match postureStatus with
      | .warning => .moderate
      | .bad => .poor
      | _ => .good
    let doc : PostureLog :=
      { userId := uid, timestamp := now, postureScore := b.postureScore,
        postureType := postureType, duration := 1,
        feedback := { alertTriggered := alertConfig.shouldAlert,
                      correctionSuggested := some alertConfig.message,
                      userResponse := none, responseTime := none },
        sessionId := some b.sessionId, notes := none }
    let saved := logPreSave doc true true b.sessionId
    (db ++ [(nextId, saved)],
     .ok { postureStatus := postureStatus,
           postureScore := b.postureScore,
           alertTriggered := alertConfig.shouldAlert,
           correctionSuggested := alertConfig.message,
           status := getPostureStatus saved.postureScore,
           description := getPostureDescription saved.postureScore,
           grade := postureGrade saved.postureScore,
           feedback := saved.feedback })

/-- Valid values of the alert-response body field. -/
def validResponses : List String := ["corrected", "ignored", "dismissed", "snoozed"]

/-- Outcome of `POST /api/video/alert/dismiss`. -/
inductive DismissResult where
  | validationError (message : String)
  | notFound (error message : String)
  | ok (response : String)
deriving DecidableEq, Repr

/-- `routes/video.js` `POST /alert/dismiss`: require `logId` and `response`,
check the response enum, then `findOneAndUpdate({_id: logId, userId}, ...)`
setting the feedback fields (the route computes
`Date.now() - new Date().getTime()`, which is 0).  Not-owned and nonexistent
ids share the same 404. -/
def alertDismissHandler (db : LogStore) (uid : Nat) (logId : Option Nat)
    (response : Option String) : LogStore × DismissResult :=
  match logId, response with
  | none, _ => (db, .validationError "Log ID and response are required")
  | _, none => (db, .validationError "Log ID and response are required")
  | some id, some r =>
    if ¬ validResponses.contains r then
      (db, .validationError "Invalid response type")
    else
      match db.find? (fun p => p.1 == id && p.2.userId == uid) with
      | none => (db, .notFound "Log Not Found" "Posture log not found or unauthorized")
      | some p =>
        let updated := { p.2 with feedback :=
          { p.2.feedback with userResponse := some r, responseTime := some 0 } }
        (db.map (fun q => if q.1 == id && q.2.userId == uid then (q.1, updated) else q),
         .ok r)

/-- In-memory state of `middleware/auth.js` `userRateLimit`: the map from user
id to the ordered list of recorded request timestamps, modelled extensionally
(`m uid` is what `requests.get(userId)` yields, `[]` standing for an absent
entry — the algorithm observes the map only through `get`, so `has`-tracking
and `delete` of empty entries are invisible to every decision). -/
abbrev RateMap := Nat → List Int

/-- `Math.ceil(d / 1000)` for an integer millisecond difference `d`. -/
def jsCeil1000 (d : Int) : Int := ⌈(d : ℚ) / 1000⌉

/-- Decision of one `userRateLimit` invocation. -/
inductive RateResult where
  | limited (retryAfter : Int)
  | allowed
deriving DecidableEq, Repr

/-- One request through `userRateLimit(maxRequests, windowMs)` for an
authenticated user: discard the caller's timestamps at or before
`now - windowMs`, reject with 429 and
`retryAfter = ceil((validRequests[0] - windowStart) / 1000)` when the retained
count meets the ceiling (leaving the map as it was), otherwise record the new
timestamp.  `cleanupRoll` is the outcome of the `Math.random() < 0.01` draw
that triggers the opportunistic sweep (only reached on the allowed path); the
sweep drops timestamps older than two windows from every entry. -/
def userRateLimitStep (maxRequests : Nat) (windowMs : Int) (m : RateMap)
    (uid : Nat) (now : Int) (cleanupRoll : Bool) : RateMap × RateResult :=
  let windowStart : Int := now - windowMs
  let validRequests := (m uid).filter (fun t => windowStart < t)
  if maxRequests ≤ validRequests.length then
    (m, .limited (jsCeil1000 (validRequests.headD 0 - windowStart)))
  else
    let m1 : RateMap := fun x => if x = uid then validRequests ++ [now] else m x
    (if cleanupRoll then
       fun x => (m1 x).filter (fun t => now - 2 * windowMs < t)
     else m1,
     .allowed)

/-- Run a sequence of requests `(userId, timestamp, cleanup roll)` through the
rate limiter, collecting the per-request decisions. -/
def runRateLimiter (maxRequests : Nat) (windowMs : Int) (m : RateMap) :
    List (Nat × Int × Bool) → RateMap × List RateResult
  | [] => (m, [])
  | r :: rest =>
    let step := userRateLimitStep maxRequests windowMs m r.1 r.2.1 r.2.2
    let next := runRateLimiter maxRequests windowMs step.1 rest
    (next.1, step.2 :: next.2)

/-- `quietHours` sub-document of the UserSettings notifications group. -/
structure QuietHours where
  enabled : Bool
  startTime : String
  endTime : String
deriving DecidableEq, Repr

/-- `notifications` group of the UserSettings schema. -/
structure NotificationSettings where
  enabled : Bool
  postureReminders : Bool
  breakReminders : Bool
  reminderInterval : Nat
  dailyReports : Bool
  weeklyReports : Bool
  achievementNotifications : Bool
  reminderSound : String
  quietHours : QuietHours
deriving DecidableEq, Repr

/-- `workingHours` sub-document of the monitoring group. -/
structure WorkingHours where
  enabled : Bool
  startTime : String
  endTime : String
  days : List String
deriving DecidableEq, Repr

/-- `breaks` sub-document of the monitoring group. -/
structure BreakSettings where
  enabled : Bool
  interval : Nat
  duration : Nat
  type : String
deriving DecidableEq, Repr

/-- `monitoring` group of the UserSettings schema. -/
structure MonitoringSettings where
  enabled : Bool
  sensitivity : String
  autoStart : Bool
  cameraPermission : Bool
  backgroundMonitoring : Bool
  workingHours : WorkingHours
  breaks : BreakSettings
deriving DecidableEq, Repr

/-- `privacy` group of the UserSettings schema. -/
structure PrivacySettings where
  dataSharing : Bool
  analytics : Bool
  crashReports : Bool
  usageStatistics : Bool
  improveProduct : Bool
  personalizedRecommendations : Bool
deriving DecidableEq, Repr

/-- `display` group of the UserSettings schema. -/
structure DisplaySettings where
  theme : String
  language : String
  units : String
  fontSize : String
  colorScheme : String
  animations : Bool
  showOnboarding : Bool
deriving DecidableEq, Repr

/-- `goals` group of the UserSettings schema (`customGoals` defaults to []). -/
structure GoalSettings where
  dailyPostureScore : Nat
  dailyMonitoringHours : Nat
  weeklyImprovementTarget : Nat
  monthlyStreakTarget : Nat
  customGoals : List String
deriving DecidableEq, Repr

/-- `accessibility` group of the UserSettings schema. -/
structure AccessibilitySettings where
  highContrast : Bool
  largeText : Bool
  screenReader : Bool
  keyboardNavigation : Bool
  voiceAlerts : Bool
  visualAlerts : Bool
  reducedMotion : Bool
deriving DecidableEq, Repr

/-- A sync-style integration entry (`healthKit`, `googleFit`). -/
structure IntegrationToggle where
  enabled : Bool
  syncFrequency : String
deriving DecidableEq, Repr

/-- `integrations` group of the UserSettings schema. -/
structure IntegrationSettings where
  healthKit : IntegrationToggle
  googleFit : IntegrationToggle
  calendarEnabled : Bool
  calendarProvider : String
  slackEnabled : Bool
  slackWebhook : Option String
deriving DecidableEq, Repr

/-- `advanced` group of the UserSettings schema. -/
structure AdvancedSettings where
  dataRetention : Nat
  exportFormat : String
  backupFrequency : String
  debugMode : Bool
  betaFeatures : Bool
deriving DecidableEq, Repr

/-- UserSettings document. -/
structure UserSettings where
  userId : Nat
  notifications : NotificationSettings
  monitoring : MonitoringSettings
  privacy : PrivacySettings
  display : DisplaySettings
  goals : GoalSettings
  accessibility : AccessibilitySettings
  integrations : IntegrationSettings
  advanced : AdvancedSettings
deriving DecidableEq, Repr

/-- Schema defaults of the notifications group (`UserSettings.js` lines 12–70). -/
def schemaDefaultNotifications : NotificationSettings :=
  { enabled := true, postureReminders := true, breakReminders := true,
    reminderInterval := 30, dailyReports := true, weeklyReports := true,
    achievementNotifications := true, reminderSound := "chime",
    quietHours := { enabled := false, startTime := "22:00", endTime := "08:00" } }

/-- Schema defaults of the monitoring group (`UserSettings.js` lines 71–156). -/
def schemaDefaultMonitoring : MonitoringSettings :=
  { enabled := true, sensitivity := "medium", autoStart := false,
    cameraPermission := false, backgroundMonitoring := true,
    workingHours := { enabled := false, startTime := "09:00", endTime := "17:00",
                      days := ["monday", "tuesday", "wednesday", "thursday", "friday"] },
    breaks := { enabled := true, interval := 60, duration := 5, type := "short" } }

/-- Schema defaults of the remaining groups. -/
def schemaDefaultPrivacy : PrivacySettings :=
  { dataSharing := false, analytics := true, crashReports := true,
    usageStatistics := true, improveProduct := false,
    personalizedRecommendations := true }

/-- Schema defaults of the display group. -/
def schemaDefaultDisplay : DisplaySettings :=
  { theme := "auto", language := "en", units := "metric", fontSize := "medium",
    colorScheme := "default", animations := true, showOnboarding := true }

/-- Schema defaults of the goals group. -/
def schemaDefaultGoals : GoalSettings :=
  { dailyPostureScore := 80, dailyMonitoringHours := 6,
    weeklyImprovementTarget := 5, monthlyStreakTarget := 20, customGoals := [] }

/-- Schema defaults of the accessibility group. -/
def schemaDefaultAccessibility : AccessibilitySettings :=
  { highContrast := false, largeText := false, screenReader := false,
    keyboardNavigation := false, voiceAlerts := false, visualAlerts := true,
    reducedMotion := false }

/-- Schema defaults of the integrations group. -/
def schemaDefaultIntegrations : IntegrationSettings :=
  { healthKit := { enabled := false, syncFrequency := "daily" },
    googleFit := { enabled := false, syncFrequency := "daily" },
    calendarEnabled := false, calendarProvider := "google",
    slackEnabled := false, slackWebhook := none }

/-- Schema defaults of the advanced group. -/
def schemaDefaultAdvanced : AdvancedSettings :=
  { dataRetention := 90, exportFormat := "json", backupFrequency := "monthly",
    debugMode := false, betaFeatures := false }

/-- `UserSettings.js` static `getDefaultSettings` (lines 487–570) — the
documented default bundle, attached to a user id for document comparison. -/
def getDefaultSettings (uid : Nat) : UserSettings :=
  { userId := uid,
    notifications :=
      { enabled := true, postureReminders := true, breakReminders := true,
        reminderInterval := 30, dailyReports := true, weeklyReports := true,
        achievementNotifications := true, reminderSound := "chime",
        quietHours := { enabled := false, startTime := "22:00", endTime := "08:00" } },
    monitoring :=
      { enabled := true, sensitivity := "medium", autoStart := false,
        cameraPermission := false, backgroundMonitoring := true,
        workingHours := { enabled := false, startTime := "09:00", endTime := "17:00",
                          days := ["monday", "tuesday", "wednesday", "thursday", "friday"] },
        breaks := { enabled := true, interval := 60, duration := 5, type := "short" } },
    privacy :=
      { dataSharing := false, analytics := true, crashReports := true,
        usageStatistics := true, improveProduct := false,
        personalizedRecommendations := true },
    display :=
      { theme := "auto", language := "en", units := "metric", fontSize := "medium",
        colorScheme := "default", animations := true, showOnboarding := true },
    goals :=
      { dailyPostureScore := 80, dailyMonitoringHours := 6,
        weeklyImprovementTarget := 5, monthlyStreakTarget := 20, customGoals := [] },
    accessibility := schemaDefaultAccessibility,
    integrations := schemaDefaultIntegrations,
    advanced := schemaDefaultAdvanced }

/-- The document built by `routes/settings.js` `GET /` when no settings exist:
the route's explicit partial object (lines 155–191), with every field the route
does not mention filled by the schema default during `new UserSettings(...)`.
Every explicitly passed value coincides with its schema default. -/
def getRouteInitialSettings (uid : Nat) : UserSettings :=
  { userId := uid,
    notifications :=
      { schemaDefaultNotifications with
        enabled := true, postureReminders := true, breakReminders := true,
        reminderInterval := 30, dailyReports := true, weeklyReports := true },
    monitoring :=
      { schemaDefaultMonitoring with
        enabled := true, sensitivity := "medium", autoStart := false,
        workingHours := { enabled := false, startTime := "09:00", endTime := "17:00",
                          days := ["monday", "tuesday", "wednesday", "thursday", "friday"] } },
    privacy :=
      { schemaDefaultPrivacy with
        dataSharing := false, analytics := true, crashReports := true },
    display :=
      { schemaDefaultDisplay with theme := "auto", language := "en", units := "metric" },
    goals :=
      { schemaDefaultGoals with
        dailyPostureScore := 80, dailyMonitoringHours := 6,
        weeklyImprovementTarget := 5 },
    accessibility := schemaDefaultAccessibility,
    integrations := schemaDefaultIntegrations,
    advanced := schemaDefaultAdvanced }

/-- The two `UserSettings.js` pre-save hooks (lines 572–595): enabled working
hours require a non-empty weekday list; enabled quiet hours require distinct
start and end times.  The first violated hook aborts the save with its error. -/
def settingsPreSave (s : UserSettings) : Except String UserSettings :=
  if s.monitoring.workingHours.enabled ∧ s.monitoring.workingHours.days.length = 0 then
    .error "At least one working day must be selected"
  else if s.notifications.quietHours.enabled ∧
      s.notifications.quietHours.startTime = s.notifications.quietHours.endTime then
    .error "Quiet hours start and end time cannot be the same"
  else
    .ok s

/-- The settings invariants of the spec, as a predicate on stored documents. -/
def settingsInvariant (s : UserSettings) : Bool :=
  (!s.monitoring.workingHours.enabled || !s.monitoring.workingHours.days.isEmpty) &&
  (!s.notifications.quietHours.enabled ||
    s.notifications.quietHours.startTime ≠ s.notifications.quietHours.endTime)

/-- A UserSettings collection (one document per user id). -/
abbrev SettingsStore := List UserSettings

/-- Outcome of the settings routes. -/
inductive SettingsResult where
  | validationError
  | serverError (message : String)
  | ok (s : UserSettings)
deriving DecidableEq, Repr

/-- `routes/settings.js` `GET /`: return the caller's settings, lazily creating
the default document (through `save()`, so the pre-save hooks run) when none
exists.  A hook error would surface as the route's 500 catch-all. -/
def getSettingsHandler (store : SettingsStore) (uid : Nat) :
    SettingsStore × SettingsResult :=
  match store.find? (fun s => s.userId == uid) with
  | some s => (store, .ok s)
  | none =>
    match settingsPreSave (getRouteInitialSettings uid) with
    | .ok s => (store ++ [s], .ok s)
    | .error m => (store, .serverError m)

/-- Mongoose cast of a plain quiet-hours object: absent fields get schema
defaults. -/
structure QuietHoursBody where
  enabled : Option Bool
  startTime : Option String
  endTime : Option String
deriving DecidableEq, Repr

/-- Cast a quiet-hours body against the schema defaults. -/
def castQuietHours (b : QuietHoursBody) : QuietHours :=
  { enabled := b.enabled.getD false,
    startTime := b.startTime.getD "22:00",
    endTime := b.endTime.getD "08:00" }

/-- Working-hours fragment of a request body. -/
structure WorkingHoursBody where
  enabled : Option Bool
  startTime : Option String
  endTime : Option String
  days : Option (List String)
deriving DecidableEq, Repr

/-- Cast a working-hours body against the schema defaults. -/
def castWorkingHours (b : WorkingHoursBody) : WorkingHours :=
  { enabled := b.enabled.getD false,
    startTime := b.startTime.getD "09:00",
    endTime := b.endTime.getD "17:00",
    days := b.days.getD ["monday", "tuesday", "wednesday", "thursday", "friday"] }

/-- The seven weekday strings accepted by the Joi schemas. -/
def weekdayNames : List String :=
  ["monday", "tuesday", "wednesday", "thursday", "friday", "saturday", "sunday"]

/-- The Joi `HH:MM` pattern `^([0-1]?[0-9]|2[0-3]):[0-5][0-9]$`. -/
def isTimeHHMM (s : String) : Bool :=
  match s.toList with
  | [h, ':', m1, m2] =>
      h.isDigit && ('0' ≤ m1 && m1 ≤ '5') && m2.isDigit
  | [h1, h2, ':', m1, m2] =>
      (((h1 = '0' || h1 = '1') && h2.isDigit) ||
        (h1 = '2' && ('0' ≤ h2 && h2 ≤ '3'))) &&
      ('0' ≤ m1 && m1 ≤ '5') && m2.isDigit
  | _ => false

/-- Body of `PUT /api/settings/monitoring` (its in-route Joi schema: no
`cameraPermission`/`backgroundMonitoring`/`breaks` keys). -/
structure MonitoringPutBody where
  enabled : Option Bool
  sensitivity : Option String
  autoStart : Option Bool
  workingHours : Option WorkingHoursBody
deriving DecidableEq, Repr

/-- Joi validation of the monitoring sub-resource body. -/
def monitoringPutBodyValid (b : MonitoringPutBody) : Bool :=
  (match b.sensitivity with
   | some s => ["low", "medium", "high"].contains s
   | none => true) &&
  (match b.workingHours with
   | some w =>
     (match w.startTime with
      | some t => isTimeHHMM t
      | none => true) &&
     (match w.endTime with
      | some t => isTimeHHMM t
      | none => true) &&
     (match w.days with
      | some ds => ds.all (fun d => weekdayNames.contains d)
      | none => true)
   | none => true)

/-- Cast a monitoring PUT body to a full monitoring sub-document
(`$set: { monitoring: req.body }` replaces the whole group; absent fields take
schema defaults). -/
def castMonitoringPut (b : MonitoringPutBody) : MonitoringSettings :=
  { enabled := b.enabled.getD true,
    sensitivity := b.sensitivity.getD "medium",
    autoStart := b.autoStart.getD false,
    cameraPermission := false,
    backgroundMonitoring := true,
    workingHours := (b.workingHours.map castWorkingHours).getD
      schemaDefaultMonitoring.workingHours,
    breaks := schemaDefaultMonitoring.breaks }

/-- `routes/settings.js` `PUT /monitoring`: validate, then
`findOneAndUpdate({userId}, {$set: {monitoring: body}}, {new, upsert})`.
A query update runs no document pre-save hook, so the working-hours
invariant is not checked on this path. -/
def putMonitoringHandler (store : SettingsStore) (uid : Nat)
    (b : MonitoringPutBody) : SettingsStore × SettingsResult :=
  if ¬ monitoringPutBodyValid b then (store, .validationError)
  else
    match store.find? (fun s => s.userId == uid) with
    | some _ =>
      let store' := store.map (fun s =>
        if s.userId == uid then { s with monitoring := castMonitoringPut b } else s)
      match store'.find? (fun s => s.userId == uid) with
      | some s' => (store', .ok s')
      | none => (store', .serverError "unreachable")
    | none =>
      let fresh := { getDefaultSettings uid with monitoring := castMonitoringPut b }
      (store ++ [fresh], .ok fresh)

/-- Notifications fragment of a whole-document PUT body. -/
structure NotificationsCatBody where
  enabled : Option Bool
  postureReminders : Option Bool
  breakReminders : Option Bool
  reminderInterval : Option Nat
  dailyReports : Option Bool
  weeklyReports : Option Bool
  achievementNotifications : Option Bool
  reminderSound : Option String
  quietHours : Option QuietHoursBody
deriving DecidableEq, Repr

/-- Monitoring fragment of a whole-document PUT body. -/
structure MonitoringCatBody where
  enabled : Option Bool
  sensitivity : Option String
  autoStart : Option Bool
  cameraPermission : Option Bool
  backgroundMonitoring : Option Bool
  workingHours : Option WorkingHoursBody
deriving DecidableEq, Repr

/-- Body of the whole-document `PUT /api/settings`.  The categories not
modelled here (privacy, display, goals, …) merge the same way and cannot touch
the two tracked invariants. -/
structure SettingsBody where
  notifications : Option NotificationsCatBody
  monitoring : Option MonitoringCatBody
deriving DecidableEq, Repr

/-- Per-top-level-key shallow merge of the notifications group
(`userSettings[key] = {...userSettings[key], ...req.body[key]}`): present
second-level fields replace the stored ones; a present nested object replaces
its sub-document wholesale (cast with schema defaults). -/
def mergeNotifications (stored : NotificationSettings) (b : NotificationsCatBody) :
    NotificationSettings :=
  { enabled := b.enabled.getD stored.enabled,
    postureReminders := b.postureReminders.getD stored.postureReminders,
    breakReminders := b.breakReminders.getD stored.breakReminders,
    reminderInterval := b.reminderInterval.getD stored.reminderInterval,
    dailyReports := b.dailyReports.getD stored.dailyReports,
    weeklyReports := b.weeklyReports.getD stored.weeklyReports,
    achievementNotifications :=
      b.achievementNotifications.getD stored.achievementNotifications,
    reminderSound := b.reminderSound.getD stored.reminderSound,
    quietHours := (b.quietHours.map castQuietHours).getD stored.quietHours }

/-- Per-top-level-key shallow merge of the monitoring group. -/
def mergeMonitoring (stored : MonitoringSettings) (b : MonitoringCatBody) :
    MonitoringSettings :=
  { enabled := b.enabled.getD stored.enabled,
    sensitivity := b.sensitivity.getD stored.sensitivity,
    autoStart := b.autoStart.getD stored.autoStart,
    cameraPermission := b.cameraPermission.getD stored.cameraPermission,
    backgroundMonitoring := b.backgroundMonitoring.getD stored.backgroundMonitoring,
    workingHours := (b.workingHours.map castWorkingHours).getD stored.workingHours,
    breaks := stored.breaks }

/-- Apply a whole-document PUT body to a settings document. -/
def applySettingsBody (s : UserSettings) (b : SettingsBody) : UserSettings :=
  { s with
    notifications := (b.notifications.map (mergeNotifications s.notifications)).getD
      s.notifications,
    monitoring := (b.monitoring.map (mergeMonitoring s.monitoring)).getD
      s.monitoring }

/-- `routes/settings.js` `PUT /`: merge the body into the existing document (or
build a fresh one over the schema defaults), then `save()` — the pre-save hooks
run, and a hook error is caught by the route as a 500 with the store
unchanged. -/
def putSettingsHandler (store : SettingsStore) (uid : Nat) (b : SettingsBody) :
    SettingsStore × SettingsResult :=
  match store.find? (fun s => s.userId == uid) with
  | some s =>
    match settingsPreSave (applySettingsBody s b) with
    | .ok s' =>
      (store.map (fun t => if t.userId == uid then s' else t), .ok s')
    | .error m => (store, .serverError m)
  | none =>
    let fresh := applySettingsBody
      { getDefaultSettings uid with userId := uid } b
    match settingsPreSave fresh with
    | .ok s' => (store ++ [s'], .ok s')
    | .error m => (store, .serverError m)

/-! ## Theorems -/

/-- C10: for every password `p`, the account stored by registration carries the
bcrypt hash of `p` (never the plaintext), verifying `p` against it succeeds,
and verifying any `p' ≠ p` against it fails. -/
theorem password_hash_roundtrip_c10 (name email p p' : String) (hne : p' ≠ p) :
    ∃ u : User,
      registerHandler [] name email p = ([u], RegisterResult.success u) ∧
      u.password = bcryptHash (PwVal.plain p) ∧
      u.comparePassword p = true ∧
      u.comparePassword p' = false ∧
      u.password ≠ PwVal.plain p := by
  refine ⟨{ name := name, email := jsToLower email,
            password := bcryptHash (PwVal.plain p), accountStatus := .active,
            lastLogin := none, loginAttempts := ⟨0, none, none⟩ }, rfl, rfl, ?_, ?_, ?_⟩
  · simp [User.comparePassword, bcryptCompare, bcryptHash]
  · simp [User.comparePassword, bcryptCompare, bcryptHash]
    exact fun h => hne h.symm
  · simp [bcryptHash]

/-- Witness for C10 at a concrete registration. -/
theorem password_hash_roundtrip_c10_witness :
    ∃ u : User,
      registerHandler [] "Test User" "a@b.com" "secret1" =
        ([u], RegisterResult.success u) ∧
      u.password = bcryptHash (PwVal.plain "secret1") ∧
      u.comparePassword "secret1" = true ∧
      u.comparePassword "other" = false ∧
      u.password ≠ PwVal.plain "secret1" :=
  password_hash_roundtrip_c10 "Test User" "a@b.com" "secret1" "other" (by decide)

/-- C3: a successful change-password stores the bcrypt hash of the bcrypt hash
of the new password (the route hashes, then the pre-save hook hashes again),
so comparing the new plaintext against the stored value fails and a later
login with the new password is rejected as invalid credentials. -/
theorem change_password_double_hash_c3 (u : User) (cur newPw e : String)
    (now : Int)
    (hcur : bcryptCompare cur u.password = true)
    (hbody : changePwBodyValid cur newPw = true)
    (hemail : jsToLower e = u.email) :
    ∃ u' : User,
      changePasswordHandler u cur newPw = (u', ChangePwResult.success) ∧
      u'.password = bcryptHash (bcryptHash (PwVal.plain newPw)) ∧
      u'.comparePassword newPw = false ∧
      loginHandler [u'] e newPw now = ([u'], LoginResult.invalidCredentials) := by
  refine ⟨userPreSave { u with password := bcryptHash (PwVal.plain newPw) } true,
    ?_, rfl, ?_, ?_⟩
  · simp [changePasswordHandler, hbody, hcur]
  · simp [User.comparePassword, bcryptCompare, bcryptHash, userPreSave]
  · have hfalse :
        bcryptCompare newPw (bcryptHash (bcryptHash (PwVal.plain newPw))) = false := by
      simp [bcryptCompare, bcryptHash]
    simp [loginHandler, userPreSave, hemail, hfalse]

/-- Witness for C3 at a concrete account and passwords. -/
theorem change_password_double_hash_c3_witness :
    ∃ u' : User,
      changePasswordHandler
          { name := "Test User", email := "a@b.com",
            password := bcryptHash (PwVal.plain "oldpass"),
            accountStatus := .active, lastLogin := none,
            loginAttempts := ⟨0, none, none⟩ }
          "oldpass" "newpass1" = (u', ChangePwResult.success) ∧
      u'.password = bcryptHash (bcryptHash (PwVal.plain "newpass1")) ∧
      u'.comparePassword "newpass1" = false ∧
      loginHandler [u'] "a@b.com" "newpass1" 99 = ([u'], LoginResult.invalidCredentials) :=
  change_password_double_hash_c3
    { name := "Test User", email := "a@b.com",
      password := bcryptHash (PwVal.plain "oldpass"),
      accountStatus := .active, lastLogin := none,
      loginAttempts := ⟨0, none, none⟩ }
    "oldpass" "newpass1" "a@b.com" 99 (by decide) (by decide) (by decide)

/-- Account used to evaluate the login route at the lockout failing input. -/
def c1User : User :=
  { name := "Test User", email := "test@example.com",
    password := bcryptHash (PwVal.plain "test123456"),
    accountStatus := .active, lastLogin := none,
    loginAttempts := ⟨0, none, none⟩ }

/-- C1 (code evaluated at the failing input): five consecutive failed logins
through the login route leave the account state completely unchanged — no
failure counter, no lock-until timestamp — because the route never calls
`incLoginAttempts`; a sixth login with the correct password succeeds, and even
an account whose `lockedUntil` lies in the future logs in successfully, while
the model's unused `incLoginAttempts` method would have set the 2-hour lock on
the fifth failure. -/
theorem login_lockout_not_enforced_c1 :
    (List.foldl
      (fun us t => (loginHandler us "test@example.com" "wrongpassword" t).1)
      [c1User] [0, 1000, 2000, 3000, 4000] = [c1User]) ∧
    c1User.loginAttempts.count = 0 ∧
    c1User.loginAttempts.lockedUntil = none ∧
    ((loginHandler [c1User] "test@example.com" "test123456" 5000).2 =
      LoginResult.success { c1User with lastLogin := some 5000 }) ∧
    ((loginHandler
        [{ c1User with loginAttempts := ⟨5, some 4000, some (4000 + twoHoursMs)⟩ }]
        "test@example.com" "test123456" 5000).2.status = 200) ∧
    ((List.foldl (fun u t => incLoginAttempts u t) c1User
        [0, 1000, 2000, 3000, 4000]).loginAttempts.lockedUntil =
      some (4000 + twoHoursMs)) := by
  decide

/-- Suspended account exercising the middleware status check. -/
def c4Suspended : User :=
  { name := "S", email := "s@example.com",
    password := bcryptHash (PwVal.plain "pw123456"),
    accountStatus := .suspended, lastLogin := none,
    loginAttempts := ⟨0, none, none⟩ }

/-- Locked account exercising the middleware lock check. -/
def c4Locked : User :=
  { name := "L", email := "l@example.com",
    password := bcryptHash (PwVal.plain "pw123456"),
    accountStatus := .active, lastLogin := none,
    loginAttempts := ⟨5, some 0, some 10000⟩ }

/-- Active, unlocked account exercising the middleware success path. -/
def c4Active : User :=
  { name := "A", email := "ok@example.com",
    password := bcryptHash (PwVal.plain "pw123456"),
    accountStatus := .active, lastLogin := none,
    loginAttempts := ⟨0, none, none⟩ }

/-- C4 counterexample: with a valid token for an existing but suspended (or
locked) account, the middleware responds with HTTP status 401, not the 403
Forbidden the claim states. -/
theorem auth_rejects_with_401_not_403_c4_counterexample :
    (authMiddleware (.valid 7) (fun i => if i = 7 then some c4Suspended else none) 0 =
      .reject 401 "Account Suspended"
        "Your account is not active. Please contact support.") ∧
    ((authMiddleware (.valid 7) (fun i => if i = 7 then some c4Suspended else none)
        0).statusCode = some 401) ∧
    (authMiddleware (.valid 8) (fun i => if i = 8 then some c4Locked else none) 0 =
      .reject 401 "Account Locked"
        "Your account is temporarily locked due to too many failed login attempts") ∧
    ((authMiddleware (.valid 8) (fun i => if i = 8 then some c4Locked else none)
        0).statusCode = some 401) ∧
    (some 401 ≠ some (403 : Nat)) := by
  decide

/-- C4 (amended): for a valid token whose account exists, a non-active account
is rejected with a 401 response carrying the distinct suspended message, a
locked account with a 401 response carrying the locked message, and otherwise
the middleware attaches the account id and account object and continues. -/
theorem auth_middleware_status_checks_c4 (findUser : Nat → Option User)
    (uid : Nat) (u : User) (now : Int) (hfind : findUser uid = some u) :
    (u.accountStatus ≠ AccountStatus.active →
      authMiddleware (.valid uid) findUser now =
        .reject 401 "Account Suspended"
          "Your account is not active. Please contact support.") ∧
    (u.accountStatus = AccountStatus.active → u.isLocked now = true →
      authMiddleware (.valid uid) findUser now =
        .reject 401 "Account Locked"
          "Your account is temporarily locked due to too many failed login attempts") ∧
    (u.accountStatus = AccountStatus.active → u.isLocked now = false →
      authMiddleware (.valid uid) findUser now = AuthResult.proceed uid u) := by
  have hm : authMiddleware (.valid uid) findUser now =
      (if u.accountStatus ≠ AccountStatus.active then
        AuthResult.reject 401 "Account Suspended"
          "Your account is not active. Please contact support."
      else if u.isLocked now then
        AuthResult.reject 401 "Account Locked"
          "Your account is temporarily locked due to too many failed login attempts"
      else AuthResult.proceed uid u) := by
    simp only [authMiddleware, hfind]
  refine ⟨fun h1 => ?_, fun h1 h2 => ?_, fun h1 h2 => ?_⟩
  · rw [hm, if_pos h1]
  · rw [hm, if_neg (by simp [h1]), if_pos h2]
  · rw [hm, if_neg (by simp [h1]), if_neg (by simp [h2])]

/-- Witness for C4 at the three concrete account states. -/
theorem auth_middleware_status_checks_c4_witness :
    (authMiddleware (.valid 1) (fun i => if i = 1 then some c4Suspended else none) 0 =
      .reject 401 "Account Suspended"
        "Your account is not active. Please contact support.") ∧
    (authMiddleware (.valid 2) (fun i => if i = 2 then some c4Locked else none) 0 =
      .reject 401 "Account Locked"
        "Your account is temporarily locked due to too many failed login attempts") ∧
    (authMiddleware (.valid 3) (fun i => if i = 3 then some c4Active else none) 99 =
      AuthResult.proceed 3 c4Active) :=
  ⟨(auth_middleware_status_checks_c4
      (fun i => if i = 1 then some c4Suspended else none) 1 c4Suspended 0 rfl).1
      (by decide),
   (auth_middleware_status_checks_c4
      (fun i => if i = 2 then some c4Locked else none) 2 c4Locked 0 rfl).2.1
      rfl (by decide),
   (auth_middleware_status_checks_c4
      (fun i => if i = 3 then some c4Active else none) 3 c4Active 99 rfl).2.2
      rfl (by decide)⟩

/-- C5: the detection endpoint derives the alert decision and the persisted
category purely from the submitted score with the fixed thresholds: a score of
at least 80 yields no alert and category good; a score in [60,80) yields an
alert, category moderate and the generic warning message; a score below 60
yields an alert, category poor and the critical message. -/
theorem detection_thresholds_c5 (db : LogStore) (nextId uid : Nat) (sid : String)
    (s : ℚ) (now : Int) (hsid : sid ≠ "") (h0 : 0 ≤ s) (h100 : s ≤ 100) :
    ∃ (saved : PostureLog) (resp : DetectionResponse),
      detectionHandler db nextId uid ⟨sid, s⟩ now =
        (db ++ [(nextId, saved)], DetectionResult.ok resp) ∧
      saved.postureScore = s ∧
      saved.postureType = postureTypeFromScore s ∧
      resp.alertTriggered = (getAlertLevel s).shouldAlert ∧
      (80 ≤ s → resp.alertTriggered = false ∧ saved.postureType = .good ∧
        resp.correctionSuggested = "") ∧
      (60 ≤ s → s < 80 → resp.alertTriggered = true ∧ saved.postureType = .moderate ∧
        resp.correctionSuggested = "Consider adjusting your sitting position") ∧
      (s < 60 → resp.alertTriggered = true ∧ saved.postureType = .poor ∧
        resp.correctionSuggested = "Please sit up straight and adjust your posture") := by
  have hv : detectionBodyValid ⟨sid, s⟩ = true := by
    simp [detectionBodyValid, hsid, h0, h100]
  simp only [detectionHandler, hv, not_true, Bool.true_eq_false, if_false,
    decide_eq_true_eq, not_true_eq_false, ite_false]
  refine ⟨_, _, rfl, rfl, ?_, rfl, ?_, ?_, ?_⟩
  · simp [logPreSave]
  · intro h80
    have hcfg : getAlertLevel s =
        { level := "none", message := "", shouldAlert := false, priority := "low" } := by
      simp [getAlertLevel, h80]
    have hty : postureTypeFromScore s = .good := by
      simp [postureTypeFromScore, h80]
    simp [logPreSave, hcfg, hty]
  · intro h60 h80
    have hcfg : getAlertLevel s =
        { level := "warning", message := "Consider adjusting your sitting position",
          shouldAlert := true, priority := "medium" } := by
      simp [getAlertLevel, h60, not_le.mpr h80]
    have hty : postureTypeFromScore s = .moderate := by
      simp [postureTypeFromScore, h60, not_le.mpr h80]
    simp [logPreSave, hcfg, hty]
  · intro h60
    have h80 : ¬ (80 ≤ s) := by
      intro h
      exact absurd h60 (not_lt.mpr (by linarith))
    have hcfg : getAlertLevel s =
        { level := "critical", message := "Please sit up straight and adjust your posture",
          shouldAlert := true, priority := "high" } := by
      simp [getAlertLevel, h80, not_le.mpr h60]
    have hty : postureTypeFromScore s = .poor := by
      simp [postureTypeFromScore, h80, not_le.mpr h60]
    simp [logPreSave, hcfg, hty]

/-- Witness for C5 at the spec scenario scores 45 and 85. -/
theorem detection_thresholds_c5_witness :
    (∃ (saved : PostureLog) (resp : DetectionResponse),
      detectionHandler [] 1 1 ⟨"s1", 45⟩ 0 = ([(1, saved)], DetectionResult.ok resp) ∧
      resp.alertTriggered = true ∧ saved.postureType = .poor ∧
      resp.correctionSuggested = "Please sit up straight and adjust your posture") ∧
    (∃ (saved : PostureLog) (resp : DetectionResponse),
      detectionHandler [] 2 1 ⟨"s1", 85⟩ 0 = ([(2, saved)], DetectionResult.ok resp) ∧
      resp.alertTriggered = false ∧ saved.postureType = .good ∧
      resp.correctionSuggested = "") := by
  constructor
  · obtain ⟨saved, resp, heq, _, _, _, _, _, hpoor⟩ :=
      detection_thresholds_c5 [] 1 1 "s1" 45 0 (by decide) (by norm_num) (by norm_num)
    obtain ⟨ha, hb, hc⟩ := hpoor (by norm_num)
    exact ⟨saved, resp, heq, ha, hb, hc⟩
  · obtain ⟨saved, resp, heq, _, _, _, hgood, _, _⟩ :=
      detection_thresholds_c5 [] 2 1 "s1" 85 0 (by decide) (by norm_num) (by norm_num)
    obtain ⟨ha, hb, hc⟩ := hgood (by norm_num)
    exact ⟨saved, resp, heq, ha, hb, hc⟩

/-- Log document used to exhibit the PUT category divergence. -/
def c2Log : PostureLog :=
  { userId := 1, timestamp := 0, postureScore := 50, postureType := .poor,
    duration := 1, feedback := defaultFeedback, sessionId := some "sess",
    notes := none }

/-- C2 counterexample: updating an owned log through `PUT /logs/:id` with body
score 90 and caller-supplied category poor persists category poor, while the
pure function of the stored score is good — the query update bypasses the
pre-save hook that recomputes the category. -/
theorem put_log_category_divergence_c2_counterexample :
    ((putLogHandler [(1, c2Log)] 1 1
        { timestamp := none, postureScore := 90, postureType := .poor,
          duration := none, notes := none }).1.map
      (fun p => (p.2.postureScore, p.2.postureType)) = [(90, PostureType.poor)]) ∧
    ((putLogHandler [(1, c2Log)] 1 1
        { timestamp := none, postureScore := 90, postureType := .poor,
          duration := none, notes := none }).2 ≠ LogOpResult.validationError) ∧
    postureTypeFromScore 90 = PostureType.good ∧
    PostureType.poor ≠ PostureType.good := by
  decide

/-- C2 (amended): the stored category equals the pure function of the stored
score after both creation endpoints (`POST /api/posture/log` and
`POST /api/video/detection`, which save through the pre-save hook), but
`PUT /api/posture/logs/:id` stores the caller-supplied category and score
verbatim, so a caller can make them diverge on the update path. -/
theorem posture_category_invariant_c2 :
    (∀ (db : LogStore) (nextId uid : Nat) (b : PostureLogBody) (now : Int)
        (freshId : String),
      postureLogBodyValid b = true →
      ∃ saved, postLogHandler db nextId uid b now freshId =
          (db ++ [(nextId, saved)], PostLogResult.created saved) ∧
        saved.postureScore = b.postureScore ∧
        saved.postureType = postureTypeFromScore saved.postureScore) ∧
    (∀ (db : LogStore) (nextId uid : Nat) (bd : DetectionBody) (now : Int),
      detectionBodyValid bd = true →
      ∃ saved r, detectionHandler db nextId uid bd now =
          (db ++ [(nextId, saved)], DetectionResult.ok r) ∧
        saved.postureScore = bd.postureScore ∧
        saved.postureType = postureTypeFromScore saved.postureScore) ∧
    (∀ (db db' : LogStore) (uid id : Nat) (b : PostureLogBody)
        (updated : PostureLog),
      putLogHandler db uid id b = (db', LogOpResult.ok updated) →
      updated.postureType = b.postureType ∧
        updated.postureScore = b.postureScore) := by
  refine ⟨?_, ?_, ?_⟩
  · intro db nextId uid b now freshId hv
    simp only [postLogHandler, hv, not_true_eq_false, if_false]
    exact ⟨_, rfl, by simp [logPreSave], by simp [logPreSave]⟩
  · intro db nextId uid bd now hv
    simp only [detectionHandler, hv, not_true_eq_false, if_false]
    exact ⟨_, _, rfl, by simp [logPreSave], by simp [logPreSave]⟩
  · intro db db' uid id b updated h
    by_cases hv : postureLogBodyValid b = true
    · simp only [putLogHandler, hv, not_true_eq_false, if_false] at h
      cases hfind : db.find? (fun p => p.1 == id && p.2.userId == uid) with
      | none => rw [hfind] at h; simp at h
      | some p =>
        rw [hfind] at h
        have h2 := congrArg Prod.snd h
        simp only [LogOpResult.ok.injEq] at h2
        rw [← h2]
        exact ⟨rfl, rfl⟩
    · simp only [putLogHandler, hv, not_false_eq_true, if_true] at h
      simp at h

/-- Witness for C2 at concrete creations and a concrete update. -/
theorem posture_category_invariant_c2_witness :
    (∃ saved, postLogHandler [] 1 1
        { timestamp := none, postureScore := 72, postureType := .poor,
          duration := none, notes := none } 0 "f1" =
        ([(1, saved)], PostLogResult.created saved) ∧
      saved.postureScore = 72 ∧
      saved.postureType = postureTypeFromScore saved.postureScore) ∧
    (∃ saved r, detectionHandler [] 1 1 ⟨"s1", 72⟩ 0 =
        ([(1, saved)], DetectionResult.ok r) ∧
      saved.postureScore = 72 ∧
      saved.postureType = postureTypeFromScore saved.postureScore) ∧
    ({ c2Log with postureScore := (90 : ℚ), postureType := PostureType.poor
        : PostureLog }.postureType = PostureType.poor ∧
     { c2Log with postureScore := (90 : ℚ), postureType := PostureType.poor
        : PostureLog }.postureScore = 90) :=
  ⟨posture_category_invariant_c2.1 [] 1 1
      { timestamp := none, postureScore := 72, postureType := .poor,
        duration := none, notes := none } 0 "f1" (by decide),
   posture_category_invariant_c2.2.1 [] 1 1 ⟨"s1", 72⟩ 0 (by decide),
   posture_category_invariant_c2.2.2 [(1, c2Log)]
      [(1, { c2Log with postureScore := (90 : ℚ), postureType := PostureType.poor })] 1 1
      { timestamp := none, postureScore := 90, postureType := .poor,
        duration := none, notes := none }
      { c2Log with postureScore := (90 : ℚ), postureType := PostureType.poor }
      (by decide)⟩

/-- No entry with the given id is owned by the caller, so the ownership-scoped
`findOne` filter comes up empty. -/
theorem find_owner_none (db : LogStore) (uid id : Nat)
    (h : ∀ p ∈ db, p.1 = id → p.2.userId ≠ uid) :
    db.find? (fun p => p.1 == id && p.2.userId == uid) = none := by
  rw [List.find?_eq_none]
  intro p hp
  simp only [Bool.and_eq_true, beq_iff_eq, not_and]
  exact fun h1 h2 => h p hp h1 h2

/-- A per-element rewrite that only touches the caller's documents does not
change the sub-list of other users' documents. -/
theorem filter_map_other_users (f : UserSettings → UserSettings) (uid : Nat)
    (hid : ∀ s, ¬ s.userId = uid → f s = s)
    (hkeep : ∀ s, (f s).userId = s.userId) :
    ∀ store : SettingsStore,
      (store.map f).filter (fun t => !(t.userId == uid)) =
        store.filter (fun t => !(t.userId == uid)) := by
  intro store
  induction store with
  | nil => rfl
  | cons s rest ih =>
    by_cases hs : s.userId = uid
    · have h1 : (!(s.userId == uid)) = false := by simp [hs]
      have h2 : (!((f s).userId == uid)) = false := by simp [hkeep, hs]
      simp only [List.map_cons, List.filter_cons, h1, h2, if_neg, Bool.false_eq_true,
        ite_false, ih]
    · rw [List.map_cons, hid s hs]
      simp only [List.filter_cons, ih]

/-- C7: for every measurement endpoint that takes a record id (update, delete,
alert dismissal), a record owned by a different account produces exactly the
same NotFound response as a nonexistent id and leaves the store unchanged; the
settings handlers never touch another user's settings document. -/
theorem cross_account_isolation_c7 :
    (∀ (db : LogStore) (uid id : Nat) (b : PostureLogBody),
      postureLogBodyValid b = true →
      (∀ p ∈ db, p.1 = id → p.2.userId ≠ uid) →
      putLogHandler db uid id b =
        (db, LogOpResult.notFound "Log Not Found"
          "Posture log not found or unauthorized")) ∧
    (∀ (db : LogStore) (uid id : Nat),
      (∀ p ∈ db, p.1 = id → p.2.userId ≠ uid) →
      deleteLogHandler db uid id =
        (db, LogOpResult.notFound "Log Not Found"
          "Posture log not found or unauthorized")) ∧
    (∀ (db : LogStore) (uid id : Nat) (r : String),
      validResponses.contains r = true →
      (∀ p ∈ db, p.1 = id → p.2.userId ≠ uid) →
      alertDismissHandler db uid (some id) (some r) =
        (db, DismissResult.notFound "Log Not Found"
          "Posture log not found or unauthorized")) ∧
    (∀ (store : SettingsStore) (uid : Nat),
      ((getSettingsHandler store uid).1).filter (fun t => !(t.userId == uid)) =
        store.filter (fun t => !(t.userId == uid))) ∧
    (∀ (store : SettingsStore) (uid : Nat) (b : MonitoringPutBody),
      ((putMonitoringHandler store uid b).1).filter (fun t => !(t.userId == uid)) =
        store.filter (fun t => !(t.userId == uid))) := by
  refine ⟨?_, ?_, ?_, ?_, ?_⟩
  · intro db uid id b hv h
    simp only [putLogHandler, hv, not_true_eq_false, if_false, find_owner_none db uid id h]
  · intro db uid id h
    simp only [deleteLogHandler, find_owner_none db uid id h]
  · intro db uid id r hr h
    simp only [alertDismissHandler, hr, not_true_eq_false, if_false,
      find_owner_none db uid id h]
  · intro store uid
    unfold getSettingsHandler
    cases hfind : store.find? (fun s => s.userId == uid) with
    | some s => rfl
    | none =>
      have hok : settingsPreSave (getRouteInitialSettings uid) =
          Except.ok (getRouteInitialSettings uid) := rfl
      simp only [hok, List.filter_append]
      have : ((getRouteInitialSettings uid).userId == uid) = true := by
        simp [getRouteInitialSettings]
      simp [this]
  · intro store uid b
    unfold putMonitoringHandler
    by_cases hv : monitoringPutBodyValid b = true
    · simp only [hv, not_true_eq_false, if_false]
      cases hfind : store.find? (fun s => s.userId == uid) with
      | some s =>
        cases hfind2 : (store.map (fun s =>
            if s.userId == uid then { s with monitoring := castMonitoringPut b }
            else s)).find? (fun s => s.userId == uid) with
        | some s' =>
          simp only []
          exact filter_map_other_users _ uid
            (fun t ht => by simp [beq_eq_false_iff_ne.mpr ht])
            (fun t => by by_cases h : t.userId = uid <;> simp [h]) store
        | none =>
          simp only []
          exact filter_map_other_users _ uid
            (fun t ht => by simp [beq_eq_false_iff_ne.mpr ht])
            (fun t => by by_cases h : t.userId = uid <;> simp [h]) store
      | none =>
        simp only [List.filter_append]
        have : (({ getDefaultSettings uid with
            monitoring := castMonitoringPut b } : UserSettings).userId == uid) = true := by
          simp [getDefaultSettings]
        simp [this]
    · simp [hv]

/-- Log owned by account 2, used to probe the endpoints as account 1. -/
def c7Log : PostureLog :=
  { userId := 2, timestamp := 0, postureScore := 70, postureType := .moderate,
    duration := 1, feedback := defaultFeedback, sessionId := some "sess",
    notes := none }

/-- Witness for C7 at concrete foreign-owned records. -/
theorem cross_account_isolation_c7_witness :
    (putLogHandler [(5, c7Log)] 1 5
        { timestamp := none, postureScore := 80, postureType := .good,
          duration := none, notes := none } =
      ([(5, c7Log)], LogOpResult.notFound "Log Not Found"
        "Posture log not found or unauthorized")) ∧
    (deleteLogHandler [(5, c7Log)] 1 5 =
      ([(5, c7Log)], LogOpResult.notFound "Log Not Found"
        "Posture log not found or unauthorized")) ∧
    (alertDismissHandler [(5, c7Log)] 1 (some 5) (some "dismissed") =
      ([(5, c7Log)], DismissResult.notFound "Log Not Found"
        "Posture log not found or unauthorized")) ∧
    (((getSettingsHandler [getDefaultSettings 2] 1).1).filter
        (fun t => !(t.userId == 1)) =
      [getDefaultSettings 2].filter (fun t => !(t.userId == 1))) ∧
    (((putMonitoringHandler [getDefaultSettings 2] 1
        { enabled := none, sensitivity := none, autoStart := none,
          workingHours := none }).1).filter (fun t => !(t.userId == 1)) =
      [getDefaultSettings 2].filter (fun t => !(t.userId == 1))) :=
  ⟨cross_account_isolation_c7.1 [(5, c7Log)] 1 5
      { timestamp := none, postureScore := 80, postureType := .good,
        duration := none, notes := none } (by decide) (by decide),
   cross_account_isolation_c7.2.1 [(5, c7Log)] 1 5 (by decide),
   cross_account_isolation_c7.2.2.1 [(5, c7Log)] 1 5 "dismissed" (by decide) (by decide),
   cross_account_isolation_c7.2.2.2.1 [getDefaultSettings 2] 1,
   cross_account_isolation_c7.2.2.2.2 [getDefaultSettings 2] 1
      { enabled := none, sensitivity := none, autoStart := none,
        workingHours := none }⟩

/-- Looking further down an appended list once the front part came up empty. -/
theorem find_append_of_none {α : Type} (p : α → Bool) (l1 l2 : List α)
    (h : l1.find? p = none) : (l1 ++ l2).find? p = l2.find? p := by
  rw [List.find?_append, h, Option.none_or]

/-- C9: the first settings read for a fresh account creates and returns exactly
the documented default bundle (in particular sensitivity "medium" and reminder
interval 30), and a repeated read returns the same document without creating
another one. -/
theorem settings_lazy_default_c9 (store : SettingsStore) (uid : Nat)
    (hfresh : store.find? (fun s => s.userId == uid) = none) :
    getSettingsHandler store uid =
      (store ++ [getRouteInitialSettings uid],
        SettingsResult.ok (getRouteInitialSettings uid)) ∧
    getRouteInitialSettings uid = getDefaultSettings uid ∧
    (getRouteInitialSettings uid).monitoring.sensitivity = "medium" ∧
    (getRouteInitialSettings uid).notifications.reminderInterval = 30 ∧
    getSettingsHandler (store ++ [getRouteInitialSettings uid]) uid =
      (store ++ [getRouteInitialSettings uid],
        SettingsResult.ok (getRouteInitialSettings uid)) := by
  have hok : settingsPreSave (getRouteInitialSettings uid) =
      Except.ok (getRouteInitialSettings uid) := rfl
  refine ⟨?_, rfl, rfl, rfl, ?_⟩
  · simp only [getSettingsHandler, hfresh, hok]
  · have happend : (store ++ [getRouteInitialSettings uid]).find?
        (fun s => s.userId == uid) = some (getRouteInitialSettings uid) := by
      rw [find_append_of_none _ _ _ hfresh]
      simp [List.find?, getRouteInitialSettings]
    simp only [getSettingsHandler, happend]

/-- Witness for C9 from an empty settings collection. -/
theorem settings_lazy_default_c9_witness :
    getSettingsHandler [] 1 =
      ([getRouteInitialSettings 1], SettingsResult.ok (getRouteInitialSettings 1)) ∧
    getRouteInitialSettings 1 = getDefaultSettings 1 ∧
    (getRouteInitialSettings 1).monitoring.sensitivity = "medium" ∧
    (getRouteInitialSettings 1).notifications.reminderInterval = 30 ∧
    getSettingsHandler [getRouteInitialSettings 1] 1 =
      ([getRouteInitialSettings 1], SettingsResult.ok (getRouteInitialSettings 1)) := by
  have h := settings_lazy_default_c9 [] 1 rfl
  simpa using h

/-- Monitoring body that enables working hours with an empty weekday set. -/
def c8Body : MonitoringPutBody :=
  { enabled := none, sensitivity := none, autoStart := none,
    workingHours := some
      { enabled := some true, startTime := none, endTime := none,
        days := some [] } }

/-- The document persisted by the monitoring PUT at the violating body. -/
def c8Stored : UserSettings :=
  { getDefaultSettings 1 with monitoring := castMonitoringPut c8Body }

/-- C8 counterexample: the monitoring sub-resource PUT persists a document
with working-hours monitoring enabled and an empty weekday set, violating the
invariant without any error — the query update bypasses the pre-save
validation hooks. -/
theorem settings_invariant_bypass_c8_counterexample :
    putMonitoringHandler [getDefaultSettings 1] 1 c8Body =
      ([c8Stored], SettingsResult.ok c8Stored) ∧
    c8Stored.monitoring.workingHours.enabled = true ∧
    c8Stored.monitoring.workingHours.days = [] ∧
    settingsInvariant c8Stored = false := by
  decide

/-- A successful pre-save run returns the document unchanged, and only for
documents satisfying both settings invariants. -/
theorem settingsPreSave_ok (s s' : UserSettings)
    (h : settingsPreSave s = Except.ok s') :
    s' = s ∧ settingsInvariant s = true := by
  unfold settingsPreSave at h
  by_cases h1 : s.monitoring.workingHours.enabled ∧
      s.monitoring.workingHours.days.length = 0
  · rw [if_pos h1] at h
    exact absurd h (by simp)
  · rw [if_neg h1] at h
    by_cases h2 : s.notifications.quietHours.enabled ∧
        s.notifications.quietHours.startTime = s.notifications.quietHours.endTime
    · rw [if_pos h2] at h
      exact absurd h (by simp)
    · rw [if_neg h2] at h
      simp only [Except.ok.injEq] at h
      refine ⟨h.symm, ?_⟩
      unfold settingsInvariant
      rw [Bool.and_eq_true, Bool.or_eq_true, Bool.or_eq_true]
      constructor
      · by_cases he : s.monitoring.workingHours.enabled
        · right
          have hdays : s.monitoring.workingHours.days ≠ [] := by
            intro hnil
            exact h1 ⟨he, by rw [hnil]; rfl⟩
          simp [List.isEmpty_iff, hdays]
        · left
          simp [he]
      · by_cases he : s.notifications.quietHours.enabled
        · right
          simp only [decide_eq_true_eq]
          exact fun heq => h2 ⟨he, heq⟩
        · left
          simp [he]

/-- C8 (amended): the settings invariants are enforced on the save-based
persistence paths — the lazy GET creation and the whole-document PUT never add
or rewrite a document into a violating state, and a violating whole-document
PUT persists nothing — while the sub-resource PUTs, which persist through a
query update, bypass the pre-save hooks and can store a violating document. -/
theorem settings_invariant_on_save_paths_c8 :
    (∀ (store : SettingsStore) (uid : Nat),
      ∀ s' ∈ (getSettingsHandler store uid).1,
        s' ∈ store ∨ settingsInvariant s' = true) ∧
    (∀ (store : SettingsStore) (uid : Nat) (b : SettingsBody),
      ∀ s' ∈ (putSettingsHandler store uid b).1,
        s' ∈ store ∨ settingsInvariant s' = true) ∧
    (∀ (store : SettingsStore) (uid : Nat) (b : SettingsBody),
      (∃ s', (putSettingsHandler store uid b).2 = SettingsResult.ok s') ∨
        (putSettingsHandler store uid b).1 = store) := by
  refine ⟨?_, ?_, ?_⟩
  · intro store uid s' hs'
    cases hfind : store.find? (fun s => s.userId == uid) with
    | some s =>
      simp only [getSettingsHandler, hfind] at hs'
      exact Or.inl hs'
    | none =>
      have hok : settingsPreSave (getRouteInitialSettings uid) =
          Except.ok (getRouteInitialSettings uid) := rfl
      simp only [getSettingsHandler, hfind, hok] at hs'
      rcases List.mem_append.mp hs' with h | h
      · exact Or.inl h
      · right
        rw [List.mem_singleton.mp h]
        rfl
  · intro store uid b s' hs'
    cases hfind : store.find? (fun s => s.userId == uid) with
    | some s =>
      simp only [putSettingsHandler, hfind] at hs'
      cases hps : settingsPreSave (applySettingsBody s b) with
      | ok s2 =>
        simp only [hps] at hs'
        rcases List.mem_map.mp hs' with ⟨t, ht, hts⟩
        by_cases hti : (t.userId == uid) = true
        · rw [if_pos hti] at hts
          right
          obtain ⟨heq, hinv⟩ := settingsPreSave_ok _ _ hps
          rw [← hts, heq]
          exact hinv
        · rw [if_neg hti] at hts
          exact Or.inl (hts ▸ ht)
      | error m =>
        simp only [hps] at hs'
        exact Or.inl hs'
    | none =>
      simp only [putSettingsHandler, hfind] at hs'
      cases hps : settingsPreSave (applySettingsBody
          { getDefaultSettings uid with userId := uid } b) with
      | ok s2 =>
        simp only [hps] at hs'
        rcases List.mem_append.mp hs' with h | h
        · exact Or.inl h
        · right
          obtain ⟨heq, hinv⟩ := settingsPreSave_ok _ _ hps
          rw [List.mem_singleton.mp h, heq]
          exact hinv
      | error m =>
        simp only [hps] at hs'
        exact Or.inl hs'
  · intro store uid b
    cases hfind : store.find? (fun s => s.userId == uid) with
    | some s =>
      cases hps : settingsPreSave (applySettingsBody s b) with
      | ok s2 =>
        exact Or.inl ⟨s2, by simp only [putSettingsHandler, hfind, hps]⟩
      | error m =>
        right
        simp only [putSettingsHandler, hfind, hps]
    | none =>
      cases hps : settingsPreSave (applySettingsBody
          { getDefaultSettings uid with userId := uid } b) with
      | ok s2 =>
        exact Or.inl ⟨s2, by simp only [putSettingsHandler, hfind, hps]⟩
      | error m =>
        right
        simp only [putSettingsHandler, hfind, hps]

/-- Witness for C8 at concrete stores and bodies. -/
theorem settings_invariant_on_save_paths_c8_witness :
    (getRouteInitialSettings 1 ∈ [] ∨
      settingsInvariant (getRouteInitialSettings 1) = true) ∧
    (getDefaultSettings 1 ∈ [getDefaultSettings 1] ∨
      settingsInvariant (getDefaultSettings 1) = true) ∧
    ((∃ s', (putSettingsHandler [getDefaultSettings 1] 1
        { notifications := none, monitoring := none }).2 =
          SettingsResult.ok s') ∨
      (putSettingsHandler [getDefaultSettings 1] 1
        { notifications := none, monitoring := none }).1 =
        [getDefaultSettings 1]) :=
  ⟨settings_invariant_on_save_paths_c8.1 [] 1 (getRouteInitialSettings 1)
      (by decide),
   settings_invariant_on_save_paths_c8.2.1 [getDefaultSettings 1] 1
      { notifications := none, monitoring := none } (getDefaultSettings 1)
      (by decide),
   settings_invariant_on_save_paths_c8.2.2 [getDefaultSettings 1] 1
      { notifications := none, monitoring := none }⟩

/-- A ceiling of a positive millisecond difference is positive. -/
theorem jsCeil1000_pos (d : Int) (hd : 0 < d) : 0 < jsCeil1000 d := by
  unfold jsCeil1000
  refine Int.ceil_pos.mpr (div_pos ?_ (by norm_num))
  exact_mod_cast hd

/-- Re-filtering with a later window start subsumes an earlier filter. -/
theorem filter_lt_filter_lt (l : List Int) (a b : Int) (hab : a ≤ b) :
    (l.filter (fun t => a < t)).filter (fun t => b < t) =
      l.filter (fun t => b < t) := by
  induction l with
  | nil => rfl
  | cons x xs ih =>
    by_cases hax : a < x
    · by_cases hbx : b < x <;> simp [List.filter_cons, hax, hbx, ih]
    · have hbx : ¬ b < x := fun h => hax (lt_of_le_of_lt hab h)
      simp [List.filter_cons, hax, hbx, ih]

/-- The limiter's decision for a request depends only on the caller's retained
in-window timestamps, never on the cleanup roll or other entries. -/
theorem rlStep_snd_of_filter (maxR : Nat) (w : Int) (m m' : RateMap) (uid : Nat)
    (now : Int) (c c' : Bool)
    (h : (m uid).filter (fun t => now - w < t) =
      (m' uid).filter (fun t => now - w < t)) :
    (userRateLimitStep maxR w m uid now c).2 =
      (userRateLimitStep maxR w m' uid now c').2 := by
  simp only [userRateLimitStep, h]
  by_cases hlen : maxR ≤ ((m' uid).filter (fun t => now - w < t)).length
  · rw [if_pos hlen, if_pos hlen]
  · rw [if_neg hlen, if_neg hlen]

/-- Running a request list splits across an append. -/
theorem runRateLimiter_append (maxR : Nat) (w : Int) (m : RateMap)
    (l1 l2 : List (Nat × Int × Bool)) :
    runRateLimiter maxR w m (l1 ++ l2) =
      ((runRateLimiter maxR w (runRateLimiter maxR w m l1).1 l2).1,
        (runRateLimiter maxR w m l1).2 ++
          (runRateLimiter maxR w (runRateLimiter maxR w m l1).1 l2).2) := by
  induction l1 generalizing m with
  | nil => simp [runRateLimiter]
  | cons r rest ih => simp [runRateLimiter, ih]

/-- Requests of one user whose timestamps, together with the already-retained
ones, lie inside a common 60-second window all pass while the total count
stays at or below the 60-request ceiling, and the entry accumulates exactly
the new timestamps in order. -/
theorem rl_run_allowed (uid : Nat) (t0 : Int) :
    ∀ (reqs : List (Int × Bool)) (m : RateMap) (acc : List Int),
      m uid = acc →
      (∀ x ∈ acc, t0 ≤ x) →
      (∀ r ∈ reqs, t0 ≤ r.1 ∧ r.1 < t0 + 60000) →
      acc.length + reqs.length ≤ 60 →
      (runRateLimiter 60 60000 m (reqs.map (fun rc => (uid, rc.1, rc.2)))).2 =
        List.replicate reqs.length RateResult.allowed ∧
      (runRateLimiter 60 60000 m (reqs.map (fun rc => (uid, rc.1, rc.2)))).1 uid =
        acc ++ reqs.map Prod.fst := by
  intro reqs
  induction reqs with
  | nil =>
    intro m acc hm _ _ _
    simp [runRateLimiter, hm]
  | cons r rest ih =>
    intro m acc hm hacc hreq hlen
    have hr0 : t0 ≤ r.1 ∧ r.1 < t0 + 60000 := hreq r (List.mem_cons_self r rest)
    have hfilter : acc.filter (fun t => r.1 - 60000 < t) = acc :=
      List.filter_eq_self.mpr (fun x hx => by
        have h1 := hacc x hx
        simp only [decide_eq_true_eq]
        linarith [hr0.2])
    have hcond : ¬ ((60 : Nat) ≤ acc.length) := by
      simp only [List.length_cons] at hlen
      omega
    have hstep : userRateLimitStep 60 60000 m uid r.1 r.2 =
        ((if r.2 then
            fun x =>
              ((fun x => if x = uid then acc ++ [r.1] else m x) x).filter
                (fun t => r.1 - 2 * 60000 < t)
          else fun x => if x = uid then acc ++ [r.1] else m x), .allowed) := by
      simp only [userRateLimitStep, hm, hfilter]
      rw [if_neg hcond]
    have hm'uid : (userRateLimitStep 60 60000 m uid r.1 r.2).1 uid = acc ++ [r.1] := by
      rw [hstep]
      by_cases hc : r.2 = true
      · simp only [hc, if_true]
        refine List.filter_eq_self.mpr (fun x hx => ?_)
        simp only [if_pos rfl] at hx
        simp only [decide_eq_true_eq]
        rcases List.mem_append.mp hx with h | h
        · have := hacc x h
          linarith [hr0.2]
        · rw [List.mem_singleton.mp h]
          linarith
      · simp [hc]
    have hacc' : ∀ x ∈ acc ++ [r.1], t0 ≤ x := by
      intro x hx
      rcases List.mem_append.mp hx with h | h
      · exact hacc x h
      · rw [List.mem_singleton.mp h]
        exact hr0.1
    have hreq' : ∀ q ∈ rest, t0 ≤ q.1 ∧ q.1 < t0 + 60000 :=
      fun q hq => hreq q (List.mem_cons_of_mem r hq)
    have hlen' : (acc ++ [r.1]).length + rest.length ≤ 60 := by
      simp only [List.length_append, List.length_cons, List.length_nil] at hlen ⊢
      omega
    obtain ⟨ih2, ih1⟩ := ih (userRateLimitStep 60 60000 m uid r.1 r.2).1
      (acc ++ [r.1]) hm'uid hacc' hreq' hlen'
    constructor
    · simp only [List.map_cons, runRateLimiter]
      rw [congrArg Prod.snd hstep]
      rw [ih2]
      simp [List.replicate_succ]
    · simp only [List.map_cons, runRateLimiter]
      rw [ih1]
      simp [List.append_assoc]

/-- C6: with ceiling 60 and a 60000 ms window, 60 requests of one account
inside a window all pass and a 61st with all 60 timestamps still retained is
rejected with a strictly positive retry-after; the decision for any request
depends only on that account's retained timestamps, and a request by one
account never changes the decision of a later in-window request by another. -/
theorem rate_limiter_c6 :
    (∀ (m : RateMap) (uid : Nat) (reqs : List (Int × Bool)) (t0 t61 : Int)
        (c61 : Bool),
      m uid = [] →
      reqs.length = 60 →
      (∀ r ∈ reqs, t0 ≤ r.1 ∧ r.1 < t0 + 60000) →
      t0 ≤ t61 → t61 < t0 + 60000 →
      ∃ retry,
        (runRateLimiter 60 60000 m
          (reqs.map (fun rc => (uid, rc.1, rc.2)) ++ [(uid, t61, c61)])).2 =
          List.replicate 60 RateResult.allowed ++ [RateResult.limited retry] ∧
        0 < retry) ∧
    (∀ (m m' : RateMap) (uid : Nat) (now : Int) (c c' : Bool),
      m uid = m' uid →
      (userRateLimitStep 60 60000 m uid now c).2 =
        (userRateLimitStep 60 60000 m' uid now c').2) ∧
    (∀ (m : RateMap) (uidA uidB : Nat) (nowA nowB : Int) (cA cB cB' : Bool),
      uidA ≠ uidB →
      nowA ≤ nowB + 60000 →
      (userRateLimitStep 60 60000
          (userRateLimitStep 60 60000 m uidA nowA cA).1 uidB nowB cB).2 =
        (userRateLimitStep 60 60000 m uidB nowB cB').2) := by
  refine ⟨?_, ?_, ?_⟩
  · intro m uid reqs t0 t61 c61 hm hlen hreq h0 h1
    obtain ⟨hres, hmap⟩ := rl_run_allowed uid t0 reqs m [] hm (by simp) hreq
      (by simp [hlen])
    rw [List.nil_append] at hmap
    set m1 := (runRateLimiter 60 60000 m
      (reqs.map (fun rc => (uid, rc.1, rc.2)))).1 with hm1def
    have hlen1 : (m1 uid).length = 60 := by
      rw [hmap, List.length_map, hlen]
    have hall : ∀ x ∈ m1 uid, t0 ≤ x := by
      rw [hmap]
      intro x hx
      obtain ⟨q, hq, hqx⟩ := List.mem_map.mp hx
      exact hqx ▸ (hreq q hq).1
    have hfilter : (m1 uid).filter (fun t => t61 - 60000 < t) = m1 uid :=
      List.filter_eq_self.mpr (fun x hx => by
        have := hall x hx
        simp only [decide_eq_true_eq]
        linarith)
    have hcond : (60 : Nat) ≤ (m1 uid).length := by rw [hlen1]
    have hstep : userRateLimitStep 60 60000 m1 uid t61 c61 =
        (m1, RateResult.limited
          (jsCeil1000 ((m1 uid).headD 0 - (t61 - 60000)))) := by
      simp only [userRateLimitStep, hfilter]
      rw [if_pos hcond]
    refine ⟨jsCeil1000 ((m1 uid).headD 0 - (t61 - 60000)), ?_, ?_⟩
    · rw [runRateLimiter_append]
      simp only [← hm1def, hres]
      simp only [runRateLimiter, hstep]
      rw [← hlen]
    · have hnil : m1 uid ≠ [] := by
        intro h
        rw [h] at hlen1
        simp at hlen1
      have hmem : (m1 uid).headD 0 ∈ m1 uid := by
        cases hm1u : m1 uid with
        | nil => exact absurd hm1u hnil
        | cons a l => simp
      have ha : t0 ≤ (m1 uid).headD 0 := hall _ hmem
      exact jsCeil1000_pos _ (by linarith)
  · intro m m' uid now c c' h
    exact rlStep_snd_of_filter 60 60000 m m' uid now c c' (by rw [h])
  · intro m uidA uidB nowA nowB cA cB cB' hne hwin
    by_cases hA : (60 : Nat) ≤
        ((m uidA).filter (fun t => nowA - 60000 < t)).length
    · have h1 : (userRateLimitStep 60 60000 m uidA nowA cA).1 = m := by
        simp only [userRateLimitStep]
        rw [if_pos hA]
      rw [h1]
      exact rlStep_snd_of_filter 60 60000 m m uidB nowB cB cB' rfl
    · have h1 : (userRateLimitStep 60 60000 m uidA nowA cA).1 =
          (if cA then
            fun x =>
              ((fun x => if x = uidA then
                  (m uidA).filter (fun t => nowA - 60000 < t) ++ [nowA]
                else m x) x).filter (fun t => nowA - 2 * 60000 < t)
          else fun x => if x = uidA then
              (m uidA).filter (fun t => nowA - 60000 < t) ++ [nowA]
            else m x) := by
        simp only [userRateLimitStep]
        rw [if_neg hA]
      rw [h1]
      by_cases hcA : cA = true
      · refine rlStep_snd_of_filter 60 60000 _ m uidB nowB cB cB' ?_
        simp only [hcA, if_true, if_neg (Ne.symm hne)]
        exact filter_lt_filter_lt (m uidB) (nowA - 2 * 60000) (nowB - 60000)
          (by linarith)
      · refine rlStep_snd_of_filter 60 60000 _ m uidB nowB cB cB' ?_
        simp [hcA, Ne.symm hne]

/-- Witness for C6: 61 requests of account 1 inside one window, a decision
unaffected by another account's entry, and a request of account 2 not
disturbing account 1's decision. -/
theorem rate_limiter_c6_witness :
    (∃ retry,
      (runRateLimiter 60 60000 (fun _ => ([] : List Int))
        (((List.range 60).map (fun i => ((i : Int), false))).map
          (fun rc => (1, rc.1, rc.2)) ++ [(1, 60, false)])).2 =
        List.replicate 60 RateResult.allowed ++ [RateResult.limited retry] ∧
      0 < retry) ∧
    ((userRateLimitStep 60 60000 (fun _ => ([] : List Int)) 1 5 false).2 =
      (userRateLimitStep 60 60000
        (fun u => if u = 2 then [1, 2, 3] else []) 1 5 true).2) ∧
    ((userRateLimitStep 60 60000
        (userRateLimitStep 60 60000 (fun _ => ([] : List Int)) 2 10 true).1
        1 20 false).2 =
      (userRateLimitStep 60 60000 (fun _ => ([] : List Int)) 1 20 true).2) :=
  ⟨rate_limiter_c6.1 (fun _ => []) 1
      ((List.range 60).map (fun i => ((i : Int), false))) 0 60 false rfl
      (by decide) (by decide) (by decide) (by decide),
   rate_limiter_c6.2.1 (fun _ => []) (fun u => if u = 2 then [1, 2, 3] else [])
      1 5 false true rfl,
   rate_limiter_c6.2.2 (fun _ => []) 2 1 10 20 true false true (by decide)
      (by decide)⟩

end PostureGuard
